import Mathlib

/-!
Verification development for the `netcdf2html` layer-rendering core
(`src/netcdf2html/api/layers.py`).  The Python data model is shallowly
embedded: xarray `DataArray`s become `NArray` (named axes plus an index
function), datasets become association lists of named arrays, mutation of
a layer's orientation flags becomes explicit layer-state passing, Python
exceptions become `Except`/error fields, numpy floats become `ℚ`
(`Option ℚ` where NaN matters), and the filesystem / HTTP collaborators of
the remote-tile layer become explicit functional state.
-/

namespace Netcdf2html

/-! ## Data model -/

/-- A named-axis multi-dimensional array: the embedding of an xarray
`DataArray`.  `axes` lists (dimension name, size) in order; `data` reads a
cell at a multi-index (one index per axis, in axis order). -/
structure NArray (α : Type) where
  axes : List (String × Nat)
  data : List Nat → α

/-- The dimension-name tuple `da.dims`. -/
def dimNames {α : Type} (da : NArray α) : List String := da.axes.map Prod.fst

/-- `shape[0]` of an array (its first axis length; 0 if it has none). -/
def dimLen {α : Type} (da : NArray α) : Nat := (da.axes.headD ("", 0)).2

/-- The size of the axis called `name` (0 if absent). -/
def dimSize {α : Type} (da : NArray α) (name : String) : Nat :=
  ((da.axes.find? (fun a => a.1 == name)).map Prod.snd).getD 0

/-- Insert a value at position `n` of a list (append when out of range). -/
def insertAt {α : Type} : Nat → α → List α → List α
  | 0, v, xs => v :: xs
  | _ + 1, v, [] => [v]
  | n + 1, v, x :: xs => x :: insertAt n v xs

/-- One keyword of `da.isel(name=idx)`: drop the named axis, fixing its
index to `idx`.  (xarray raises on an unknown dimension name; that case is
modelled as a no-op and excluded by the theorems' hypotheses.) -/
def iselOne {α : Type} (da : NArray α) (name : String) (idx : Nat) : NArray α :=
  match da.axes.findIdx? (fun a => a.1 == name) with
  | none => da
  | some k => ⟨da.axes.eraseIdx k, fun ix => da.data (insertAt k idx ix)⟩

/-- `da.isel(**selectors)`: apply every selector. -/
def isel {α : Type} (da : NArray α) (sels : List (String × Nat)) : NArray α :=
  sels.foldl (fun a s => iselOne a s.1 s.2) da

/-- Re-insert index 0 at each size-1 axis position, turning an index into a
squeezed array back into an index into the original. -/
def unsqueezeIx : List (String × Nat) → List Nat → List Nat
  | [], _ => []
  | ax :: rest, ix =>
    if ax.2 = 1 then 0 :: unsqueezeIx rest ix
    else ix.headD 0 :: unsqueezeIx rest ix.tail

/-- `da.squeeze()`: remove all size-1 axes. -/
def squeeze {α : Type} (da : NArray α) : NArray α :=
  ⟨da.axes.filter (fun ax => ax.2 != 1), fun ix => da.data (unsqueezeIx da.axes ix)⟩

/-- A plain 2-D array (the canonical extracted grid, or an encoded image). -/
structure Arr2 (α : Type) where
  rows : Nat
  cols : Nat
  data : Nat → Nat → α

/-- Pointwise map over a 2-D array. -/
def Arr2.map {α β : Type} (f : α → β) (a : Arr2 α) : Arr2 β :=
  ⟨a.rows, a.cols, fun i j => f (a.data i j)⟩

/-- The mutable state of `LayerBase` (identity, bound coordinate names,
selectors and the two orientation flags). -/
structure Layer where
  layer_name : String
  layer_label : String
  case_dimension : String
  x_coordinate : String
  y_coordinate : String
  time_coordinate : String
  selectors : List (String × Nat)
  flipud : Bool
  fliplr : Bool

/-- `LayerBase.__init__`: fresh layer, empty coordinate names, flags off. -/
def mkLayer (layer_name layer_label : String) (selectors : List (String × Nat)) : Layer :=
  ⟨layer_name, layer_label, "", "", "", "", selectors, false, false⟩

/-- `LayerBase.bind`: pure assignment of the four coordinate names. -/
def Layer.bind (l : Layer) (case_dimension x_coordinate y_coordinate time_coordinate : String) :
    Layer :=
  { l with case_dimension := case_dimension, time_coordinate := time_coordinate,
           x_coordinate := x_coordinate, y_coordinate := y_coordinate }

/-- A dataset: named variables (coordinate values as exact rationals,
standing in for the Python floats). -/
def Dataset := List (String × NArray ℚ)

/-- `name in ds`. -/
def dsMem (ds : Dataset) (name : String) : Bool := ds.any (fun e => e.1 == name)

/-- `ds[name]`, `none` when absent (Python raises `KeyError` there). -/
def dsGet (ds : Dataset) (name : String) : Option (NArray ℚ) :=
  (ds.find? (fun e => e.1 == name)).map Prod.snd

/-! ## `LayerBase.check` and `LayerBase.get_data` -/

/-- `LayerBase.check`.  Returns the (possibly mutated) layer together with
either `.error e` — a raised Python exception — or `.ok o` where `o` is the
returned validation-error string (`none` = falsy success).  Empty
coordinate names are skipped by the missing-variable loop but still used
for the `ds[...]` lookups that follow, which then raise `KeyError`.  The
two dimensionality messages reproduce the source strings, which lack the
`f`-prefix and so contain literal braces.  The flag mutation order follows
the source: `fliplr` is decided from the X coordinate before the Y
coordinate's data is touched, and an empty (zero-length) coordinate array
makes the `data[0]` access raise `IndexError`. -/
def check (l : Layer) (ds : Dataset) : Layer × Except String (Option String) :=
  match [l.x_coordinate, l.y_coordinate, l.time_coordinate].find?
      (fun v => v != "" && !dsMem ds v) with
  | some v => (l, .ok (some ("No variable " ++ v)))
  | none =>
    match dsGet ds l.x_coordinate with
    | none => (l, .error ("KeyError: " ++ l.x_coordinate))
    | some xc =>
      match dsGet ds l.y_coordinate with
      | none => (l, .error ("KeyError: " ++ l.y_coordinate))
      | some yc =>
        if xc.axes.length ≠ 1 then
          (l, .ok (some "x_coordinate \x7bself.x_coordinate\x7d must be 1-dimensional"))
        else if yc.axes.length ≠ 1 then
          (l, .ok (some "y_coordinate \x7bself.y_coordinate\x7d must be 1-dimensional"))
        else
          let nx := dimLen xc
          if nx = 0 then (l, .error "IndexError: index 0 is out of bounds")
          else
            let l1 := if xc.data [0] > xc.data [nx - 1] then { l with fliplr := true } else l
            let ny := dimLen yc
            if ny = 0 then (l1, .error "IndexError: index 0 is out of bounds")
            else
              let l2 := if yc.data [0] < yc.data [ny - 1] then { l1 with flipud := true } else l1
              (l2, .ok none)

/-- The array after the selector and squeeze steps of `get_data`
(`da.isel(**selectors)` is only called when selectors are configured). -/
def selectedSqueezed {α : Type} (l : Layer) (da : NArray α) : NArray α :=
  squeeze (if l.selectors.isEmpty then da else isel da l.selectors)

/-- `LayerBase.get_data`: select, squeeze, require 2-D, transpose to
(row = Y, col = X) when the Y dimension comes after the X dimension, then
apply the vertical and horizontal flips.  `.error` models the Python
exceptions (`Data is not 2D`, and `.index` on a missing dimension name). -/
def get_data {α : Type} (l : Layer) (da : NArray α) : Except String (Arr2 α) :=
  let db := selectedSqueezed l da
  if db.axes.length ≠ 2 then .error "Data is not 2D"
  else
    match (dimNames db).findIdx? (fun d => d == l.x_coordinate),
          (dimNames db).findIdx? (fun d => d == l.y_coordinate) with
    | some xi, some yi =>
      let shape := db.axes.map Prod.snd
      let s0 := shape.getD 0 0
      let s1 := shape.getD 1 0
      let base : Nat → Nat → α := fun i j => db.data [i, j]
      let rows := if yi > xi then s1 else s0
      let cols := if yi > xi then s0 else s1
      let arr1 : Nat → Nat → α := if yi > xi then (fun i j => base j i) else base
      let arr2 : Nat → Nat → α := if l.flipud then (fun i j => arr1 (rows - 1 - i) j) else arr1
      let arr3 : Nat → Nat → α := if l.fliplr then (fun i j => arr2 i (cols - 1 - j)) else arr2
      .ok ⟨rows, cols, arr3⟩
    | _, _ => .error "ValueError: dimension not found"

/-- The missing-variable loop of `check`: the first bound coordinate name,
in the order X, Y, time, that is non-empty and absent from the dataset. -/
def missingCoord (l : Layer) (ds : Dataset) : Option String :=
  [l.x_coordinate, l.y_coordinate, l.time_coordinate].find? (fun v => v != "" && !dsMem ds v)

/-- Modelled from the spec (§4.1, §7): the validation outcome `check` is
required to report — the first missing coordinate in order X, Y, time
(skipping empty names), then a dimensionality error for a non-1-D X or Y
coordinate, and `none` (falsy) on success.  Used as the comparison point
for the refinement claim about `check`'s error protocol. -/
def checkExpected (l : Layer) (ds : Dataset) : Option String :=
  match missingCoord l ds with
  | some v => some ("No variable " ++ v)
  | none =>
    match dsGet ds l.x_coordinate, dsGet ds l.y_coordinate with
    | some xc, some yc =>
      if xc.axes.length ≠ 1 then
        some "x_coordinate \x7bself.x_coordinate\x7d must be 1-dimensional"
      else if yc.axes.length ≠ 1 then
        some "y_coordinate \x7bself.y_coordinate\x7d must be 1-dimensional"
      else none
    | _, _ => none

/-- A coordinate variable is indexable when it is absent, not 1-D, or
non-empty — i.e. the `data[0]` accesses of `check` cannot raise on it. -/
def coordIndexable (ds : Dataset) (n : String) : Bool :=
  match dsGet ds n with
  | none => true
  | some a => !(a.axes.length == 1 && dimLen a == 0)

/-! ## Remote-tile (`LayerWMS`) model -/

/-- Python `str.replace` for a non-empty pattern, written with explicit
fuel so that it evaluates by kernel reduction: replaces non-overlapping
occurrences left to right. -/
def replaceChars (pat rep : List Char) : Nat → List Char → List Char
  | 0, s => s
  | fuel + 1, s =>
    match s with
    | [] => []
    | c :: cs =>
      if !pat.isEmpty && pat.isPrefixOf s then rep ++ replaceChars pat rep fuel (s.drop pat.length)
      else c :: replaceChars pat rep fuel cs

/-- `s.replace(pat, rep)`. -/
def pyReplace (s pat rep : String) : String :=
  ⟨replaceChars pat.data rep.data s.data.length s.data⟩

/-- The filesystem: an association of paths to readable file contents. -/
def FS := List (String × String)

def fsGet (fs : FS) (p : String) : Option String := (fs.find? (fun e => e.1 == p)).map Prod.snd

def fsRemove (fs : FS) (p : String) : FS := fs.filter (fun e => e.1 != p)

def fsSet (fs : FS) (p c : String) : FS := (p, c) :: fsRemove fs p

/-- `get_image_dimensions`: reads the `lat`/`lon` variables' shapes.  Both
branches of the source read `lon.shape[1]`, so a 1-dimensional `lon` makes
the 1-D branch raise `IndexError` (modelled as `.error`). -/
def get_image_dimensions (ds : Dataset) : Except String (Nat × Nat) :=
  match dsGet ds "lat", dsGet ds "lon" with
  | some lat, some lon =>
    let latShape := lat.axes.map Prod.snd
    let lonShape := lon.axes.map Prod.snd
    if latShape.length = 2 then
      match latShape.get? 0, lonShape.get? 1 with
      | some ih, some iw => .ok (iw, ih)
      | _, _ => .error "IndexError: tuple index out of range"
    else if latShape.length = 1 then
      match latShape.get? 0, lonShape.get? 1 with
      | some ih, some iw => .ok (iw, ih)
      | _, _ => .error "IndexError: tuple index out of range"
    else .error "Unable to determine image dimensions from dataset"
  | _, _ => .error "AttributeError: dataset has no lat/lon"

/-- The state of a `LayerWMS`: the base layer, URL template, scale, and the
per-instance success cache (URL → path of the downloaded file) and failure
set. -/
structure LayerWMS where
  base : Layer
  wms_url : String
  scale : Nat
  cache : List (String × String)
  failed : List String

/-- The values of a coordinate variable, read as a 1-D array. -/
def coordVals (a : NArray ℚ) : List ℚ := (List.range (dimLen a)).map (fun i => a.data [i])

def listMin : List ℚ → ℚ
  | [] => 0
  | x :: r => r.foldl min x

def listMax : List ℚ → ℚ
  | [] => 0
  | x :: r => r.foldl max x

/-- The pure part of `LayerWMS.build` up to the URL: pixel dimensions from
`get_image_dimensions` times the scale, spacing from the first two
coordinate values, bounding box = coordinate min/max widened by half a
spacing on each side, then placeholder substitution.  `.error` marks the
raised `IndexError` when a coordinate has fewer than two values (`xc[1]`).
Coordinate variables are used as 1-D arrays, which `check` has
validated. -/
def wmsComputeUrl (l : LayerWMS) (ds : Dataset) : Except String String :=
  match get_image_dimensions ds with
  | .error e => .error e
  | .ok wh =>
    let image_width := wh.1 * l.scale
    let image_height := wh.2 * l.scale
    match dsGet ds l.base.x_coordinate, dsGet ds l.base.y_coordinate with
    | some xc, some yc =>
      if dimLen xc < 2 then .error "IndexError: index 1 is out of bounds"
      else if dimLen yc < 2 then .error "IndexError: index 1 is out of bounds"
      else
        let spacing_x := |xc.data [0] - xc.data [1]|
        let spacing_y := |yc.data [0] - yc.data [1]|
        let x_min := listMin (coordVals xc) - spacing_x / 2
        let x_max := listMax (coordVals xc) + spacing_x / 2
        let y_min := listMin (coordVals yc) - spacing_y / 2
        let y_max := listMax (coordVals yc) + spacing_y / 2
        .ok (pyReplace (pyReplace (pyReplace (pyReplace (pyReplace (pyReplace
          l.wms_url
          "\x7bWIDTH\x7d" (toString image_width))
          "\x7bHEIGHT\x7d" (toString image_height))
          "\x7bYMIN\x7d" (toString y_min))
          "\x7bYMAX\x7d" (toString y_max))
          "\x7bXMIN\x7d" (toString x_min))
          "\x7bXMAX\x7d" (toString x_max))
    | _, _ => .error "KeyError: coordinate variable"

/-- The outcome of one `LayerWMS.build` call: the updated layer state, the
filesystem, the URLs fetched during the call, and the raised exception if
any. -/
structure WMSBuildResult where
  layer : LayerWMS
  fs : FS
  fetches : List String
  err : Option String

/-- `LayerWMS.build`.  `net` is the remote server (`none` = response whose
status is not 200).  The pre-existing output file is deleted first.  A
symlink is modelled by copying the link target's current content; a
dangling link (target absent, e.g. a link to itself at a just-deleted
path) yields no readable file. -/
def wmsBuild (net : String → Option String) (l : LayerWMS) (ds : Dataset) (path : String)
    (fs : FS) : WMSBuildResult :=
  let fs1 := fsRemove fs path
  match wmsComputeUrl l ds with
  | .error e => ⟨l, fs1, [], some e⟩
  | .ok url =>
    match fsGet l.cache url with
    | some src =>
      match fsGet fs1 src with
      | some c => ⟨l, fsSet fs1 path c, [], none⟩
      | none => ⟨l, fs1, [], none⟩
    | none =>
      if l.failed.contains url then ⟨l, fs1, [], none⟩
      else
        match net url with
        | some content =>
          ⟨{ l with cache := fsSet l.cache url path }, fsSet fs1 path content, [url], none⟩
        | none => ⟨{ l with failed := url :: l.failed }, fs1, [url], none⟩

/-! ## Image encoders and the single-band layer -/

/-- An RGBA colour as returned by a matplotlib colour-map function
(each channel in [0,1]). -/
def Colour := ℚ × ℚ × ℚ × ℚ

/-- Truncation toward zero, the semantics of numpy's float→int cast. -/
def truncQ (q : ℚ) : Int := if 0 ≤ q then ⌊q⌋ else ⌈q⌉

/-- The numpy `uint8` cast of an integer (wraps modulo 256). -/
def u8 (z : Int) : Nat := (z % 256).toNat

def u8q (q : ℚ) : Nat := u8 (truncQ q)

/-- `save_image`: pixel-wise `np.uint8(255*cmap_fn((arr-vmin)/(vmax-vmin)))`.
The colour-map function resolved from the palette name is passed as `cmap`
(the palette registry is an external collaborator). -/
def save_image (cmap : ℚ → Colour) (vmin vmax : ℚ) (arr : Arr2 ℚ) :
    Arr2 (Nat × Nat × Nat × Nat) :=
  ⟨arr.rows, arr.cols, fun i j =>
    let c := cmap ((arr.data i j - vmin) / (vmax - vmin))
    (u8q (255 * c.1), u8q (255 * c.2.1), u8q (255 * c.2.2.1), u8q (255 * c.2.2.2))⟩

/-- The state of a `LayerSingleBand`. -/
structure LayerSingleBand where
  base : Layer
  band_name : String
  vmin : ℚ
  vmax : ℚ
  cmap_name : String

/-- `LayerSingleBand.build`: extract the band and render it through
`save_image` with the layer's `vmin`, `vmax` and palette. -/
def singleBuild (cmap : ℚ → Colour) (l : LayerSingleBand) (ds : Dataset) :
    Except String (Arr2 (Nat × Nat × Nat × Nat)) :=
  match dsGet ds l.band_name with
  | none => .error ("KeyError: " ++ l.band_name)
  | some da => (get_data l.base da).map (save_image cmap l.vmin l.vmax)

/-- The synthetic gradient grid of `LayerSingleBand.build_legend`:
`a[:,i] = vmin + (i/legend_width)*(vmax-vmin)`, 20 rows by 200 columns. -/
def legend_array (l : LayerSingleBand) : Arr2 ℚ :=
  ⟨20, 200, fun _ j => l.vmin + ((j : ℚ) / 200) * (l.vmax - l.vmin)⟩

/-- `LayerSingleBand.build_legend`: the gradient rendered through
`save_image` with the layer's own `vmin`, `vmax` and palette. -/
def build_legend (cmap : ℚ → Colour) (l : LayerSingleBand) : Arr2 (Nat × Nat × Nat × Nat) :=
  save_image cmap l.vmin l.vmax (legend_array l)

/-- The normalized value `(v-vmin)/(vmax-vmin)` that `save_image` feeds to
the colour map. -/
def normValue (vmin vmax v : ℚ) : ℚ := (v - vmin) / (vmax - vmin)

/-! ## False-colour encoder -/

/-- A numpy float: `none` is NaN. -/
def PF := Option ℚ

/-- NaN-strict subtraction. -/
def pfSub (a b : PF) : PF :=
  match a, b with
  | some x, some y => some (x - y)
  | _, _ => none

/-- NaN-strict division; division by zero yields NaN (only the `0/0` case
is reachable in the verified paths, where IEEE also gives NaN). -/
def pfDiv (a b : PF) : PF :=
  match a, b with
  | some x, some y => if y = 0 then none else some (x / y)
  | _, _ => none

def arrVals (a : Arr2 PF) : List PF :=
  (List.range a.rows).flatMap (fun i => (List.range a.cols).map (fun j => a.data i j))

/-- `np.nanmin`: minimum over the non-NaN values (NaN when there are none). -/
def nanmin (a : Arr2 PF) : PF :=
  match (arrVals a).filterMap id with
  | [] => none
  | x :: xs => some (xs.foldl min x)

/-- `np.nanmax`. -/
def nanmax (a : Arr2 PF) : PF :=
  match (arrVals a).filterMap id with
  | [] => none
  | x :: xs => some (xs.foldl max x)

/-- The per-band normalization `v = (arr - minv) / (maxv - minv)` of
`save_image_falsecolour`. -/
def normBand (a : Arr2 PF) : Arr2 PF :=
  Arr2.map (fun v => pfDiv (pfSub v (nanmin a)) (pfSub (nanmax a) (nanmin a))) a

/-- The uint8 cast applied after the stretch; numpy's cast of NaN is
platform-dependent garbage, modelled as 0 (the point is that it is
produced silently, with no exception). -/
def u8pf : PF → Nat
  | none => 0
  | some q => u8q (255 * q)

/-- One band of `save_image_falsecolour`: normalize by the band's own
nanmin/nanmax, apply the square-root stretch, scale to 8 bits.  `sq` is
the real-valued square root on non-NaN values, lifted NaN-strictly; the
NaN theorems hold for every such `sq` (exact square roots are not
rational). -/
def encodeBand (sq : ℚ → ℚ) (a : Arr2 PF) : Arr2 Nat :=
  Arr2.map u8pf (Arr2.map (Option.map sq) (normBand a))

/-- `save_image_falsecolour`: the three encoded bands stacked per pixel. -/
def save_image_falsecolour (sq : ℚ → ℚ) (r g b : Arr2 PF) : Arr2 (Nat × Nat × Nat) :=
  ⟨r.rows, r.cols, fun i j =>
    ((encodeBand sq r).data i j, (encodeBand sq g).data i j, (encodeBand sq b).data i j)⟩

/-! ## Mask layer -/

/-- The state of a `LayerMask`. -/
structure LayerMask where
  base : Layer
  band_name : String
  r : Int
  g : Int
  b : Int
  mask : Option Int

/-- `da.astype(int)`. -/
def astypeInt (da : NArray ℚ) : NArray Int := ⟨da.axes, fun ix => truncQ (da.data ix)⟩

/-- Python truthiness of the optional bitmask (`None` and `0` are falsy). -/
def pyTruthy : Option Int → Bool
  | none => false
  | some m => m != 0

/-- `save_image_mask`: constant RGB channels, alpha 255 where the value is
positive and 0 elsewhere. -/
def save_image_mask (arr : Arr2 Int) (r g b : Int) : Arr2 (Nat × Nat × Nat × Nat) :=
  ⟨arr.rows, arr.cols, fun i j => (u8 r, u8 g, u8 b, if arr.data i j > 0 then 255 else 0)⟩

/-- `LayerMask.build`: cast the band to int, AND with the bitmask when it
is truthy (`if self.mask:`), extract, and render through the mask
encoder. -/
def maskBuild (l : LayerMask) (ds : Dataset) : Except String (Arr2 (Nat × Nat × Nat × Nat)) :=
  match dsGet ds l.band_name with
  | none => .error ("KeyError: " ++ l.band_name)
  | some da0 =>
    let da1 := astypeInt da0
    let da2 :=
      if pyTruthy l.mask then
        (⟨da1.axes, fun ix => Int.land (da1.data ix) (l.mask.getD 0)⟩ : NArray Int)
      else da1
    (get_data l.base da2).map (fun a => save_image_mask a l.r l.g l.b)

/-! ## Concrete inputs used by the witnesses and counterexamples -/

/-- A 3-D variable with a singleton leading axis; squeezing leaves the
dims in the order (x, y), exercising the transpose. -/
def w1_da : NArray ℚ :=
  ⟨[("t", 1), ("x", 2), ("y", 3)], fun ix =>
    match ix with
    | [a, b, c] => ((a * 100 + b * 10 + c : Nat) : ℚ)
    | _ => 0⟩

def w1_layer : Layer := ⟨"n", "lbl", "", "x", "y", "", [], false, true⟩

def w2_xc : NArray ℚ := ⟨[("x", 2)], fun ix => if ix = [0] then 0 else 1⟩

def w2_yc : NArray ℚ := ⟨[("y", 2)], fun ix => if ix = [0] then 5 else 3⟩

def w2_ds : Dataset := [("x", w2_xc), ("y", w2_yc)]

def w2_layer : Layer := ⟨"n", "lbl", "", "x", "y", "", [], false, false⟩

/-- A layer whose bound X and Y coordinate names are empty — reachable, as
the factory binds `layer.get("x", default_x_coordinate)` verbatim. -/
def w3_empty_layer : Layer := (mkLayer "L" "L" []).bind "case" "" "" ""

def w3_layer : Layer := ⟨"n", "lbl", "", "x", "y", "", [], false, false⟩

def w3_ds : Dataset := [("x", w2_xc)]

def w4_lat2d : NArray ℚ := ⟨[("j", 2), ("i", 2)], fun _ => 0⟩

def w4_xc : NArray ℚ := ⟨[("x", 2)], fun ix => if ix = [0] then 0 else 1⟩

def w4_yc : NArray ℚ := ⟨[("y", 2)], fun ix => if ix = [0] then 1 else 0⟩

def w4_ds : Dataset := [("lat", w4_lat2d), ("lon", w4_lat2d), ("x", w4_xc), ("y", w4_yc)]

def w4_base : Layer := ⟨"w", "w", "", "x", "y", "", [], false, false⟩

def w4_layer : LayerWMS := ⟨w4_base, "http://tile", 1, [], []⟩

def w4_net : String → Option String := fun u => if u = "http://tile" then some "BYTES" else none

def w5_net : String → Option String := fun _ => none

def w6_lat1d : NArray ℚ := ⟨[("lat", 2)], fun ix => if ix = [0] then 0 else 1⟩

def w6_lon1d : NArray ℚ := ⟨[("lon", 2)], fun ix => if ix = [0] then 0 else 1⟩

def w6_ds : Dataset := [("lat", w6_lat1d), ("lon", w6_lon1d)]

def w6_base : Layer := ⟨"w", "w", "", "lon", "lat", "", [], false, false⟩

def w6_layer : LayerWMS := ⟨w6_base, "http://tile", 1, [], []⟩

def w7_cmap : ℚ → Colour := fun q => (q, q, q, 1)

def w7_layer : LayerSingleBand := ⟨w2_layer, "b", 0, 10, "coolwarm"⟩

/-- The spec's end-to-end example grid `[[0,5],[10,2]]`. -/
def w7_arr : Arr2 ℚ :=
  ⟨2, 2, fun i j =>
    if i = 0 ∧ j = 0 then 0 else if i = 0 ∧ j = 1 then 5 else if i = 1 ∧ j = 0 then 10 else 2⟩

/-- A 2×2 constant-valued band (every cell 5.0, no NaNs). -/
def constBand : Arr2 PF := ⟨2, 2, fun _ _ => some 5⟩

def w9_layer : Layer := ⟨"n", "lbl", "", "x", "y", "", [], true, true⟩

def w10_ds : Dataset := [("m", ⟨[("y", 2), ("x", 2)], fun ix => if ix = [0, 0] then 1 else 0⟩)]

def w10_layer : LayerMask := ⟨w2_layer, "m", 200, 100, 50, some 0⟩

end Netcdf2html

namespace Netcdf2html

/-! ## Helper lemmas: `get_data` on a two-axis array -/

theorem get_data_yx {α : Type} (l : Layer) (da : NArray α) (m n : Nat)
    (hax : (selectedSqueezed l da).axes = [(l.y_coordinate, m), (l.x_coordinate, n)])
    (hxy : l.x_coordinate ≠ l.y_coordinate) :
    get_data l da = .ok ⟨m, n, fun i j =>
      (selectedSqueezed l da).data
        [if l.flipud then m - 1 - i else i, if l.fliplr then n - 1 - j else j]⟩ := by
  have hyx : (l.y_coordinate == l.x_coordinate) = false := by
    simp only [beq_eq_false_iff_ne, ne_eq]
    exact fun hh => hxy hh.symm
  have hxy' : (l.x_coordinate == l.y_coordinate) = false := by
    simp only [beq_eq_false_iff_ne, ne_eq]; exact hxy
  rw [get_data]
  simp only [dimNames, hax, List.map_cons, List.map_nil, List.length_cons, List.length_nil,
    List.findIdx?_cons, hyx, hxy', beq_self_eq_true, if_true, if_false,
    Bool.false_eq_true, List.getD_cons_zero, List.getD_cons_succ]
  norm_num
  cases hud : l.flipud <;> cases hlr : l.fliplr <;> simp

theorem get_data_xy {α : Type} (l : Layer) (da : NArray α) (m n : Nat)
    (hax : (selectedSqueezed l da).axes = [(l.x_coordinate, n), (l.y_coordinate, m)])
    (hxy : l.x_coordinate ≠ l.y_coordinate) :
    get_data l da = .ok ⟨m, n, fun i j =>
      (selectedSqueezed l da).data
        [if l.fliplr then n - 1 - j else j, if l.flipud then m - 1 - i else i]⟩ := by
  have hyx : (l.y_coordinate == l.x_coordinate) = false := by
    simp only [beq_eq_false_iff_ne, ne_eq]
    exact fun hh => hxy hh.symm
  have hxy' : (l.x_coordinate == l.y_coordinate) = false := by
    simp only [beq_eq_false_iff_ne, ne_eq]; exact hxy
  rw [get_data]
  simp only [dimNames, hax, List.map_cons, List.map_nil, List.length_cons, List.length_nil,
    List.findIdx?_cons, hyx, hxy', beq_self_eq_true, if_true, if_false,
    Bool.false_eq_true, List.getD_cons_zero, List.getD_cons_succ]
  norm_num
  cases hud : l.flipud <;> cases hlr : l.fliplr <;> simp

/-! ## Helper lemmas: the branches of `check` -/

theorem check_found_missing (l : Layer) (ds : Dataset) (v : String)
    (hfind : missingCoord l ds = some v) :
    check l ds = (l, .ok (some ("No variable " ++ v))) := by
  simp only [check, missingCoord] at hfind ⊢
  rw [hfind]

theorem check_keyx (l : Layer) (ds : Dataset)
    (hfind : missingCoord l ds = none)
    (hx : dsGet ds l.x_coordinate = none) :
    check l ds = (l, .error ("KeyError: " ++ l.x_coordinate)) := by
  simp only [check, missingCoord] at hfind ⊢
  rw [hfind, hx]

theorem check_keyy (l : Layer) (ds : Dataset) (xc : NArray ℚ)
    (hfind : missingCoord l ds = none)
    (hx : dsGet ds l.x_coordinate = some xc)
    (hy : dsGet ds l.y_coordinate = none) :
    check l ds = (l, .error ("KeyError: " ++ l.y_coordinate)) := by
  simp only [check, missingCoord] at hfind ⊢
  rw [hfind, hx, hy]

theorem check_xdim (l : Layer) (ds : Dataset) (xc yc : NArray ℚ)
    (hfind : missingCoord l ds = none)
    (hx : dsGet ds l.x_coordinate = some xc) (hy : dsGet ds l.y_coordinate = some yc)
    (h1 : xc.axes.length ≠ 1) :
    check l ds =
      (l, .ok (some "x_coordinate \x7bself.x_coordinate\x7d must be 1-dimensional")) := by
  simp only [check, missingCoord] at hfind ⊢
  rw [hfind, hx, hy]
  simp [h1]

theorem check_ydim (l : Layer) (ds : Dataset) (xc yc : NArray ℚ)
    (hfind : missingCoord l ds = none)
    (hx : dsGet ds l.x_coordinate = some xc) (hy : dsGet ds l.y_coordinate = some yc)
    (h1 : xc.axes.length = 1) (h2 : yc.axes.length ≠ 1) :
    check l ds =
      (l, .ok (some "y_coordinate \x7bself.y_coordinate\x7d must be 1-dimensional")) := by
  simp only [check, missingCoord] at hfind ⊢
  rw [hfind, hx, hy]
  simp [h1, h2]

theorem check_ixx (l : Layer) (ds : Dataset) (xc yc : NArray ℚ)
    (hfind : missingCoord l ds = none)
    (hx : dsGet ds l.x_coordinate = some xc) (hy : dsGet ds l.y_coordinate = some yc)
    (h1 : xc.axes.length = 1) (h2 : yc.axes.length = 1)
    (h3 : dimLen xc = 0) :
    check l ds = (l, .error "IndexError: index 0 is out of bounds") := by
  simp only [check, missingCoord] at hfind ⊢
  rw [hfind, hx, hy]
  simp [h1, h2, h3]

theorem check_ixy (l : Layer) (ds : Dataset) (xc yc : NArray ℚ)
    (hfind : missingCoord l ds = none)
    (hx : dsGet ds l.x_coordinate = some xc) (hy : dsGet ds l.y_coordinate = some yc)
    (h1 : xc.axes.length = 1) (h2 : yc.axes.length = 1)
    (h3 : dimLen xc ≠ 0) (h4 : dimLen yc = 0) :
    check l ds = (if xc.data [0] > xc.data [dimLen xc - 1] then { l with fliplr := true } else l,
      .error "IndexError: index 0 is out of bounds") := by
  simp only [check, missingCoord] at hfind ⊢
  rw [hfind, hx, hy]
  simp [h1, h2, h3, h4]

theorem check_run (l : Layer) (ds : Dataset) (xc yc : NArray ℚ)
    (hfind : missingCoord l ds = none)
    (hx : dsGet ds l.x_coordinate = some xc) (hy : dsGet ds l.y_coordinate = some yc)
    (h1 : xc.axes.length = 1) (h2 : yc.axes.length = 1)
    (h3 : dimLen xc ≠ 0) (h4 : dimLen yc ≠ 0) :
    check l ds =
      ({ l with fliplr := l.fliplr || decide (xc.data [0] > xc.data [dimLen xc - 1]),
                flipud := l.flipud || decide (yc.data [0] < yc.data [dimLen yc - 1]) },
        .ok none) := by
  simp only [check, missingCoord] at hfind ⊢
  rw [hfind, hx, hy]
  simp only [h1, h2, ne_eq, h3, h4, if_false, not_true_eq_false, if_true, ite_false]
  by_cases h5 : xc.data [0] > xc.data [dimLen xc - 1] <;>
    by_cases h6 : yc.data [0] < yc.data [dimLen yc - 1] <;>
    simp [h5, h6]

theorem dsMem_some (ds : Dataset) (n : String) (h : dsMem ds n = true) :
    ∃ a, dsGet ds n = some a := by
  induction ds with
  | nil => simp [dsMem] at h
  | cons e rest ih =>
    by_cases he : (e.1 == n) = true
    · refine ⟨e.2, ?_⟩
      unfold dsGet
      rw [@List.find?_cons_of_pos _ (fun x => x.1 == n) e rest he]
      rfl
    · have hm : dsMem rest n = true := by
        unfold dsMem at h ⊢
        simp only [List.any_cons, Bool.or_eq_true] at h
        rcases h with h | h
        · exact absurd h he
        · exact h
      obtain ⟨a, ha⟩ := ih hm
      refine ⟨a, ?_⟩
      unfold dsGet at ha ⊢
      rw [@List.find?_cons_of_neg _ (fun x => x.1 == n) e rest he]
      exact ha

theorem missing_none_mem (l : Layer) (ds : Dataset)
    (hfind : missingCoord l ds = none) (n : String)
    (hn : n ∈ [l.x_coordinate, l.y_coordinate, l.time_coordinate]) (hne : n ≠ "") :
    dsMem ds n = true := by
  simp only [missingCoord, List.find?_eq_none] at hfind
  have := hfind n hn
  simp [hne] at this
  exact this

theorem check_flag_mono (l : Layer) (ds : Dataset) :
    ((check l ds).1.flipud = l.flipud ∨ (check l ds).1.flipud = true) ∧
    ((check l ds).1.fliplr = l.fliplr ∨ (check l ds).1.fliplr = true) := by
  rcases hfind : missingCoord l ds with _ | v
  case some => rw [check_found_missing l ds v hfind]; exact ⟨Or.inl rfl, Or.inl rfl⟩
  rcases hx : dsGet ds l.x_coordinate with _ | xc
  case none => rw [check_keyx l ds hfind hx]; exact ⟨Or.inl rfl, Or.inl rfl⟩
  rcases hy : dsGet ds l.y_coordinate with _ | yc
  case none => rw [check_keyy l ds xc hfind hx hy]; exact ⟨Or.inl rfl, Or.inl rfl⟩
  by_cases h1 : xc.axes.length = 1
  case neg => rw [check_xdim l ds xc yc hfind hx hy h1]; exact ⟨Or.inl rfl, Or.inl rfl⟩
  by_cases h2 : yc.axes.length = 1
  case neg => rw [check_ydim l ds xc yc hfind hx hy h1 h2]; exact ⟨Or.inl rfl, Or.inl rfl⟩
  by_cases h3 : dimLen xc = 0
  case pos => rw [check_ixx l ds xc yc hfind hx hy h1 h2 h3]; exact ⟨Or.inl rfl, Or.inl rfl⟩
  by_cases h4 : dimLen yc = 0
  case pos =>
    rw [check_ixy l ds xc yc hfind hx hy h1 h2 h3 h4]
    constructor
    · split <;> exact Or.inl rfl
    · split
      · exact Or.inr rfl
      · exact Or.inl rfl
  rw [check_run l ds xc yc hfind hx hy h1 h2 h3 h4]
  constructor
  · cases hb : l.flipud <;>
      cases hdec : decide (yc.data [0] < yc.data [dimLen yc - 1]) <;> simp [hb, hdec]
  · cases hb : l.fliplr <;>
      cases hdec : decide (xc.data [0] > xc.data [dimLen xc - 1]) <;> simp [hb, hdec]

/-! ## Helper lemmas: the filesystem model -/

theorem fsGet_set_self (fs : FS) (p c : String) : fsGet (fsSet fs p c) p = some c := by
  unfold fsGet fsSet
  rw [@List.find?_cons_of_pos _ (fun e => e.1 == p) (p, c) (fsRemove fs p) (by simp)]
  rfl

theorem fsGet_remove_other (fs : FS) (p q : String) (h : q ≠ p) :
    fsGet (fsRemove fs p) q = fsGet fs q := by
  induction fs with
  | nil => rfl
  | cons e rest ih =>
    simp only [fsGet, fsRemove, List.filter_cons] at ih ⊢
    by_cases he : e.1 = p
    · rw [if_neg (by simp [he])]
      rw [ih]
      rw [@List.find?_cons_of_neg _ (fun x => x.1 == q) e rest
        (by simp [he]; exact fun hh => h hh.symm)]
    · rw [if_pos (by simpa using he)]
      by_cases hq : (e.1 == q) = true
      · rw [@List.find?_cons_of_pos _ (fun x => x.1 == q) e
            (List.filter (fun x => x.1 != p) rest) hq,
          @List.find?_cons_of_pos _ (fun x => x.1 == q) e rest hq]
      · rw [@List.find?_cons_of_neg _ (fun x => x.1 == q) e
            (List.filter (fun x => x.1 != p) rest) hq,
          @List.find?_cons_of_neg _ (fun x => x.1 == q) e rest hq]
        exact ih

theorem fsGet_remove_self (fs : FS) (p : String) : fsGet (fsRemove fs p) p = none := by
  induction fs with
  | nil => rfl
  | cons e rest ih =>
    simp only [fsGet, fsRemove, List.filter_cons] at ih ⊢
    by_cases he : e.1 = p
    · rw [if_neg (by simp [he])]
      exact ih
    · rw [if_pos (by simpa using he)]
      rw [@List.find?_cons_of_neg _ (fun x => x.1 == p) e
          (List.filter (fun x => x.1 != p) rest) (by simpa using he)]
      exact ih

theorem fsGet_set_other (fs : FS) (p q c : String) (h : q ≠ p) :
    fsGet (fsSet fs p c) q = fsGet fs q := by
  unfold fsSet
  have step : fsGet ((p, c) :: fsRemove fs p) q = fsGet (fsRemove fs p) q := by
    unfold fsGet
    rw [@List.find?_cons_of_neg _ (fun e => e.1 == q) (p, c) (fsRemove fs p)
      (by simp; exact fun hh => h hh.symm)]
  rw [step]
  exact fsGet_remove_other fs p q h

/-- The URL computed by `LayerWMS.build` depends only on the layer's static
fields, not on its cache or failure set. -/
theorem wmsComputeUrl_cache_irrelevant (l : LayerWMS) (ds : Dataset)
    (cc : List (String × String)) (ff : List String) :
    wmsComputeUrl { l with cache := cc, failed := ff } ds = wmsComputeUrl l ds := rfl

end Netcdf2html

namespace Netcdf2html

/-! ## The claims -/

/-- C1: for a variable whose dimensions after selector application and
squeezing are exactly the bound X and Y coordinate dimensions (in either
order), `get_data` returns a 2-D array with rows = Y length and
cols = X length; it transposes exactly when the Y dimension's position is
greater than the X dimension's, then applies the vertical flip, then the
horizontal flip (expressed by the index arithmetic of the returned
cells). -/
theorem C1_get_data_canonical_grid {α : Type} (l : Layer) (da : NArray α)
    (hxy : l.x_coordinate ≠ l.y_coordinate)
    (hdims : dimNames (selectedSqueezed l da) = [l.y_coordinate, l.x_coordinate] ∨
             dimNames (selectedSqueezed l da) = [l.x_coordinate, l.y_coordinate]) :
    ∃ A, get_data l da = .ok A ∧
      A.rows = dimSize (selectedSqueezed l da) l.y_coordinate ∧
      A.cols = dimSize (selectedSqueezed l da) l.x_coordinate ∧
      ∀ i j, A.data i j =
        (selectedSqueezed l da).data
          (if dimNames (selectedSqueezed l da) = [l.y_coordinate, l.x_coordinate] then
            [if l.flipud then A.rows - 1 - i else i, if l.fliplr then A.cols - 1 - j else j]
          else
            [if l.fliplr then A.cols - 1 - j else j, if l.flipud then A.rows - 1 - i else i]) := by
  have hlen : (selectedSqueezed l da).axes.length = 2 := by
    have h2 : (dimNames (selectedSqueezed l da)).length = 2 := by
      obtain h | h := hdims <;> rw [h] <;> rfl
    simpa [dimNames] using h2
  rcases hax : (selectedSqueezed l da).axes with _ | ⟨p, _ | ⟨q, _ | ⟨r, rest⟩⟩⟩ <;>
    rw [hax] at hlen <;> simp at hlen
  obtain h | h := hdims
  · -- dims = [y, x] : no transpose
    rw [dimNames, hax] at h
    obtain ⟨h1, h2⟩ : p.1 = l.y_coordinate ∧ q.1 = l.x_coordinate := by simpa using h
    have hax' : (selectedSqueezed l da).axes = [(l.y_coordinate, p.2), (l.x_coordinate, q.2)] := by
      rw [hax, ← h1, ← h2]
    have hcond : dimNames (selectedSqueezed l da) = [l.y_coordinate, l.x_coordinate] := by
      rw [dimNames, hax]; simp [h1, h2]
    refine ⟨_, get_data_yx l da p.2 q.2 hax' hxy, ?_, ?_, ?_⟩
    · simp [dimSize, hax', beq_self_eq_true]
    · have hqx : (l.y_coordinate == l.x_coordinate) = false := by
        simp only [beq_eq_false_iff_ne, ne_eq]; exact fun hh => hxy hh.symm
      simp [dimSize, hax', hqx]
    · intro i j
      simp only [hcond, if_true]
  · -- dims = [x, y] : transpose
    rw [dimNames, hax] at h
    obtain ⟨h1, h2⟩ : p.1 = l.x_coordinate ∧ q.1 = l.y_coordinate := by simpa using h
    have hax' : (selectedSqueezed l da).axes = [(l.x_coordinate, p.2), (l.y_coordinate, q.2)] := by
      rw [hax, ← h1, ← h2]
    have hcond : dimNames (selectedSqueezed l da) ≠ [l.y_coordinate, l.x_coordinate] := by
      rw [dimNames, hax]
      simp [h1, h2]
      intro hh
      exact absurd hh hxy
    refine ⟨_, get_data_xy l da q.2 p.2 hax' hxy, ?_, ?_, ?_⟩
    · have hqx : (l.x_coordinate == l.y_coordinate) = false := by
        simp only [beq_eq_false_iff_ne, ne_eq]; exact hxy
      simp [dimSize, hax', hqx]
    · simp [dimSize, hax', beq_self_eq_true]
    · intro i j
      rw [if_neg hcond]

/-- Witness for C1 at a concrete 3-D variable (singleton time axis,
native dimension order (x, y), horizontal flip set). -/
theorem C1_get_data_canonical_grid_witness :
    w1_layer.x_coordinate ≠ w1_layer.y_coordinate ∧
    (∃ A, get_data w1_layer w1_da = .ok A ∧
      A.rows = dimSize (selectedSqueezed w1_layer w1_da) w1_layer.y_coordinate ∧
      A.cols = dimSize (selectedSqueezed w1_layer w1_da) w1_layer.x_coordinate ∧
      ∀ i j, A.data i j =
        (selectedSqueezed w1_layer w1_da).data
          (if dimNames (selectedSqueezed w1_layer w1_da)
              = [w1_layer.y_coordinate, w1_layer.x_coordinate] then
            [if w1_layer.flipud then A.rows - 1 - i else i,
              if w1_layer.fliplr then A.cols - 1 - j else j]
          else
            [if w1_layer.fliplr then A.cols - 1 - j else j,
              if w1_layer.flipud then A.rows - 1 - i else i])) :=
  ⟨by decide, C1_get_data_canonical_grid w1_layer w1_da (by decide) (Or.inr (by decide))⟩

/-- C2: on a dataset where `check` succeeds for a layer with both flags
still unset, the horizontal-flip flag ends up true exactly when the X
coordinate's first value exceeds its last, and the vertical-flip flag
exactly when the Y coordinate's first value is less than its last; `bind`,
the only other layer-state operation of the embedding, leaves both flags
untouched. -/
theorem C2_check_sets_orientation_flags (l : Layer) (ds : Dataset) (xc yc : NArray ℚ)
    (hud : l.flipud = false) (hlr : l.fliplr = false)
    (hx : dsGet ds l.x_coordinate = some xc) (hy : dsGet ds l.y_coordinate = some yc)
    (hok : (check l ds).2 = .ok none) :
    ((check l ds).1.fliplr = decide (xc.data [0] > xc.data [dimLen xc - 1])) ∧
    ((check l ds).1.flipud = decide (yc.data [0] < yc.data [dimLen yc - 1])) ∧
    (∀ cd x y t, ((l.bind cd x y t).fliplr = l.fliplr ∧ (l.bind cd x y t).flipud = l.flipud)) := by
  have main : ((check l ds).1.fliplr = decide (xc.data [0] > xc.data [dimLen xc - 1])) ∧
      ((check l ds).1.flipud = decide (yc.data [0] < yc.data [dimLen yc - 1])) := by
    rcases hfind : missingCoord l ds with _ | v
    case some => rw [check_found_missing l ds v hfind] at hok; simp at hok
    by_cases h1 : xc.axes.length = 1
    case neg => rw [check_xdim l ds xc yc hfind hx hy h1] at hok; simp at hok
    by_cases h2 : yc.axes.length = 1
    case neg => rw [check_ydim l ds xc yc hfind hx hy h1 h2] at hok; simp at hok
    by_cases h3 : dimLen xc = 0
    case pos => rw [check_ixx l ds xc yc hfind hx hy h1 h2 h3] at hok; simp at hok
    by_cases h4 : dimLen yc = 0
    case pos => rw [check_ixy l ds xc yc hfind hx hy h1 h2 h3 h4] at hok; simp at hok
    rw [check_run l ds xc yc hfind hx hy h1 h2 h3 h4]
    simp [hud, hlr]
  exact ⟨main.1, main.2, fun cd x y t => ⟨rfl, rfl⟩⟩

/-- Witness for C2: ascending X (no horizontal flip) and ascending Y
(vertical flip raised) on a fresh layer. -/
theorem C2_check_sets_orientation_flags_witness :
    ((check w2_layer w2_ds).1.fliplr
        = decide (w2_xc.data [0] > w2_xc.data [dimLen w2_xc - 1])) ∧
    ((check w2_layer w2_ds).1.flipud
        = decide (w2_yc.data [0] < w2_yc.data [dimLen w2_yc - 1])) :=
  ⟨(C2_check_sets_orientation_flags w2_layer w2_ds w2_xc w2_yc rfl rfl rfl rfl rfl).1,
   (C2_check_sets_orientation_flags w2_layer w2_ds w2_xc w2_yc rfl rfl rfl rfl rfl).2.1⟩

/-- C3 counterexample: a layer whose bound X and Y coordinate names are
empty (the factory binds the configured defaults verbatim, so this state
is constructible).  The missing-variable loop skips the empty names, but
`ds[self.x_coordinate]` then raises `KeyError` — `check` does raise. -/
theorem C3_check_raises_counterexample :
    ∃ e, (check w3_empty_layer ([] : Dataset)).2 = Except.error e :=
  ⟨"KeyError: ", rfl⟩

/-- C3 (amended): provided the bound X and Y coordinate names are
non-empty and the X and Y coordinate variables, when present and
1-dimensional, have at least one element, `check` raises no exception and
returns exactly the spec's protocol (`checkExpected`): the first missing
non-empty coordinate in the order X, Y, time, else a dimensionality error
for a non-1-D X or Y coordinate, else the falsy `none`. -/
theorem C3_check_error_protocol_amended (l : Layer) (ds : Dataset)
    (hxn : l.x_coordinate ≠ "") (hyn : l.y_coordinate ≠ "")
    (hix : coordIndexable ds l.x_coordinate = true)
    (hiy : coordIndexable ds l.y_coordinate = true) :
    (check l ds).2 = .ok (checkExpected l ds) := by
  rcases hfind : missingCoord l ds with _ | v
  case some =>
    rw [check_found_missing l ds v hfind]
    simp [checkExpected, hfind]
  obtain ⟨xc, hx⟩ := dsMem_some ds l.x_coordinate
    (missing_none_mem l ds hfind l.x_coordinate (by simp) hxn)
  obtain ⟨yc, hy⟩ := dsMem_some ds l.y_coordinate
    (missing_none_mem l ds hfind l.y_coordinate (by simp) hyn)
  by_cases h1 : xc.axes.length = 1
  case neg =>
    rw [check_xdim l ds xc yc hfind hx hy h1]
    simp [checkExpected, hfind, hx, hy, h1]
  by_cases h2 : yc.axes.length = 1
  case neg =>
    rw [check_ydim l ds xc yc hfind hx hy h1 h2]
    simp [checkExpected, hfind, hx, hy, h1, h2]
  have h3 : dimLen xc ≠ 0 := by
    rw [coordIndexable, hx] at hix
    simp [h1] at hix
    simpa using hix
  have h4 : dimLen yc ≠ 0 := by
    rw [coordIndexable, hy] at hiy
    simp [h2] at hiy
    simpa using hiy
  rw [check_run l ds xc yc hfind hx hy h1 h2 h3 h4]
  simp [checkExpected, hfind, hx, hy, h1, h2]

/-- Witness for C3 (amended): a dataset missing the Y coordinate — `check`
returns the first-missing error string and raises nothing. -/
theorem C3_check_error_protocol_amended_witness :
    (check w3_layer w3_ds).2 = .ok (checkExpected w3_layer w3_ds) :=
  C3_check_error_protocol_amended w3_layer w3_ds (by decide) (by decide) rfl rfl

end Netcdf2html

namespace Netcdf2html

/-- C4 counterexample: two `build` calls with the *same* output path.  The
first call downloads and writes the file; the second call deletes it
(`os.remove`), then creates a symlink to the cached path — which is the
path itself, a dangling self-link.  The second call "succeeds" with no
readable output file at all, so the second output is not byte-identical to
the first (exactly one fetch does still occur). -/
theorem C4_same_output_path_counterexample :
    fsGet (wmsBuild w4_net w4_layer w4_ds "out.png" []).fs "out.png" = some "BYTES" ∧
    (wmsBuild w4_net (wmsBuild w4_net w4_layer w4_ds "out.png" []).layer w4_ds "out.png"
        (wmsBuild w4_net w4_layer w4_ds "out.png" []).fs).fetches = [] ∧
    fsGet (wmsBuild w4_net (wmsBuild w4_net w4_layer w4_ds "out.png" []).layer w4_ds "out.png"
        (wmsBuild w4_net w4_layer w4_ds "out.png" []).fs).fs "out.png" = none :=
  ⟨rfl, rfl, rfl⟩

/-- C4 (amended): for a fresh RemoteTile layer instance, two `build` calls
whose layer/dataset combinations substitute to the identical URL — and
whose output paths are distinct — cause exactly one network fetch; the
second call raises nothing and leaves both output paths holding content
byte-identical to the fetched body (the second is a link to the first). -/
theorem C4_remote_cache_single_fetch_amended (net : String → Option String) (l : LayerWMS)
    (ds1 ds2 : Dataset) (p1 p2 : String) (fs : FS) (u c : String)
    (hc : l.cache = []) (hf : l.failed = [])
    (hu1 : wmsComputeUrl l ds1 = .ok u) (hu2 : wmsComputeUrl l ds2 = .ok u)
    (hnet : net u = some c) (hp : p1 ≠ p2) :
    (wmsBuild net l ds1 p1 fs).fetches ++
      (wmsBuild net (wmsBuild net l ds1 p1 fs).layer ds2 p2 (wmsBuild net l ds1 p1 fs).fs).fetches
        = [u] ∧
    fsGet (wmsBuild net l ds1 p1 fs).fs p1 = some c ∧
    fsGet (wmsBuild net (wmsBuild net l ds1 p1 fs).layer ds2 p2
        (wmsBuild net l ds1 p1 fs).fs).fs p2 = some c ∧
    fsGet (wmsBuild net (wmsBuild net l ds1 p1 fs).layer ds2 p2
        (wmsBuild net l ds1 p1 fs).fs).fs p1 = some c ∧
    (wmsBuild net l ds1 p1 fs).err = none ∧
    (wmsBuild net (wmsBuild net l ds1 p1 fs).layer ds2 p2
        (wmsBuild net l ds1 p1 fs).fs).err = none := by
  have h1 : wmsBuild net l ds1 p1 fs =
      ⟨{ l with cache := fsSet l.cache u p1 }, fsSet (fsRemove fs p1) p1 c, [u], none⟩ := by
    unfold wmsBuild
    rw [hu1, hc, hf]
    simp [fsGet, hnet]
  have hinv : wmsComputeUrl { l with cache := fsSet l.cache u p1 } ds2 = .ok u := by
    have hsame : wmsComputeUrl { l with cache := fsSet l.cache u p1 } ds2
        = wmsComputeUrl l ds2 := rfl
    rw [hsame, hu2]
  have hcache : fsGet (fsSet l.cache u p1) u = some p1 := fsGet_set_self l.cache u p1
  have h2 : wmsBuild net { l with cache := fsSet l.cache u p1 } ds2 p2
      (fsSet (fsRemove fs p1) p1 c) =
      ⟨{ l with cache := fsSet l.cache u p1 },
        fsSet (fsRemove (fsSet (fsRemove fs p1) p1 c) p2) p2 c, [], none⟩ := by
    unfold wmsBuild
    rw [hinv]
    dsimp only
    rw [hcache]
    dsimp only
    have hread : fsGet (fsRemove (fsSet (fsRemove fs p1) p1 c) p2) p1 = some c := by
      rw [fsGet_remove_other _ p2 p1 hp, fsGet_set_self]
    rw [hread]
  rw [h1]
  simp only [h2]
  refine ⟨?_, ?_, ?_, ?_, ?_, ?_⟩ <;>
    simp [fsGet_set_self, fsGet_set_other, fsGet_remove_other, hp]

/-- Witness for C4 (amended) at the concrete tile server and dataset, with
two distinct output paths. -/
theorem C4_remote_cache_single_fetch_amended_witness :
    (wmsBuild w4_net w4_layer w4_ds "a.png" []).fetches ++
      (wmsBuild w4_net (wmsBuild w4_net w4_layer w4_ds "a.png" []).layer w4_ds "b.png"
        (wmsBuild w4_net w4_layer w4_ds "a.png" []).fs).fetches = ["http://tile"] ∧
    fsGet (wmsBuild w4_net w4_layer w4_ds "a.png" []).fs "a.png" = some "BYTES" ∧
    fsGet (wmsBuild w4_net (wmsBuild w4_net w4_layer w4_ds "a.png" []).layer w4_ds "b.png"
        (wmsBuild w4_net w4_layer w4_ds "a.png" []).fs).fs "b.png" = some "BYTES" ∧
    fsGet (wmsBuild w4_net (wmsBuild w4_net w4_layer w4_ds "a.png" []).layer w4_ds "b.png"
        (wmsBuild w4_net w4_layer w4_ds "a.png" []).fs).fs "a.png" = some "BYTES" ∧
    (wmsBuild w4_net w4_layer w4_ds "a.png" []).err = none ∧
    (wmsBuild w4_net (wmsBuild w4_net w4_layer w4_ds "a.png" []).layer w4_ds "b.png"
        (wmsBuild w4_net w4_layer w4_ds "a.png" []).fs).err = none :=
  C4_remote_cache_single_fetch_amended w4_net w4_layer w4_ds w4_ds "a.png" "b.png" []
    "http://tile" "BYTES" rfl rfl rfl rfl rfl (by decide)

/-- C5: for a fresh RemoteTile layer, when the server fails for the
computed URL, the first `build` records the failure after its single fetch
attempt, and a second `build` substituting to the same URL performs no
fetch, produces no output file, raises no error, and leaves the failure
set unchanged. -/
theorem C5_failed_url_not_retried (net : String → Option String) (l : LayerWMS)
    (ds1 ds2 : Dataset) (p1 p2 : String) (fs : FS) (u : String)
    (hc : l.cache = []) (hf : l.failed = [])
    (hu1 : wmsComputeUrl l ds1 = .ok u) (hu2 : wmsComputeUrl l ds2 = .ok u)
    (hnet : net u = none) :
    (wmsBuild net l ds1 p1 fs).fetches = [u] ∧
    u ∈ (wmsBuild net l ds1 p1 fs).layer.failed ∧
    (wmsBuild net (wmsBuild net l ds1 p1 fs).layer ds2 p2
        (wmsBuild net l ds1 p1 fs).fs).fetches = [] ∧
    fsGet (wmsBuild net (wmsBuild net l ds1 p1 fs).layer ds2 p2
        (wmsBuild net l ds1 p1 fs).fs).fs p2 = none ∧
    (wmsBuild net (wmsBuild net l ds1 p1 fs).layer ds2 p2
        (wmsBuild net l ds1 p1 fs).fs).err = none ∧
    (wmsBuild net (wmsBuild net l ds1 p1 fs).layer ds2 p2
        (wmsBuild net l ds1 p1 fs).fs).layer.failed
      = (wmsBuild net l ds1 p1 fs).layer.failed := by
  have h1 : wmsBuild net l ds1 p1 fs =
      ⟨{ l with failed := u :: l.failed }, fsRemove fs p1, [u], none⟩ := by
    unfold wmsBuild
    rw [hu1, hc, hf]
    simp [fsGet, hnet]
  have hinv : wmsComputeUrl { l with failed := u :: l.failed } ds2 = .ok u := by
    have hsame : wmsComputeUrl { l with failed := u :: l.failed } ds2
        = wmsComputeUrl l ds2 := rfl
    rw [hsame, hu2]
  have h2 : wmsBuild net { l with failed := u :: l.failed } ds2 p2 (fsRemove fs p1) =
      ⟨{ l with failed := u :: l.failed }, fsRemove (fsRemove fs p1) p2, [], none⟩ := by
    unfold wmsBuild
    rw [hinv]
    dsimp only
    rw [hc]
    simp [fsGet]
  rw [h1]
  simp only [h2]
  refine ⟨?_, ?_, ?_, ?_, ?_, ?_⟩ <;> simp [fsGet_remove_self]

/-- Witness for C5 at the concrete dataset against a server that always
fails. -/
theorem C5_failed_url_not_retried_witness :
    (wmsBuild w5_net w4_layer w4_ds "a.png" []).fetches = ["http://tile"] ∧
    "http://tile" ∈ (wmsBuild w5_net w4_layer w4_ds "a.png" []).layer.failed ∧
    (wmsBuild w5_net (wmsBuild w5_net w4_layer w4_ds "a.png" []).layer w4_ds "b.png"
        (wmsBuild w5_net w4_layer w4_ds "a.png" []).fs).fetches = [] ∧
    fsGet (wmsBuild w5_net (wmsBuild w5_net w4_layer w4_ds "a.png" []).layer w4_ds "b.png"
        (wmsBuild w5_net w4_layer w4_ds "a.png" []).fs).fs "b.png" = none ∧
    (wmsBuild w5_net (wmsBuild w5_net w4_layer w4_ds "a.png" []).layer w4_ds "b.png"
        (wmsBuild w5_net w4_layer w4_ds "a.png" []).fs).err = none ∧
    (wmsBuild w5_net (wmsBuild w5_net w4_layer w4_ds "a.png" []).layer w4_ds "b.png"
        (wmsBuild w5_net w4_layer w4_ds "a.png" []).fs).layer.failed
      = (wmsBuild w5_net w4_layer w4_ds "a.png" []).layer.failed :=
  C5_failed_url_not_retried w5_net w4_layer w4_ds w4_ds "a.png" "b.png" [] "http://tile"
    rfl rfl rfl rfl rfl

/-- C6: on a dataset with 1-dimensional `lat`/`lon` coordinates — on which
`check` succeeds — `get_image_dimensions` raises `IndexError` instead of
returning the coordinate grid shape: both of its branches read
`lon.shape[1]`, which does not exist for a 1-D `lon`.  `build` therefore
raises before fetching and produces nothing, where the claim (and the
clear intent of the dedicated 1-D branch) is width = len(lon)·scale,
height = len(lat)·scale. -/
theorem C6_image_dimensions_indexerror_1d :
    (check w6_base w6_ds).2 = .ok none ∧
    get_image_dimensions w6_ds = .error "IndexError: tuple index out of range" ∧
    (wmsBuild w5_net w6_layer w6_ds "tile.png" []).err
      = some "IndexError: tuple index out of range" ∧
    (wmsBuild w5_net w6_layer w6_ds "tile.png" []).fetches = [] ∧
    fsGet (wmsBuild w5_net w6_layer w6_ds "tile.png" []).fs "tile.png" = none :=
  ⟨rfl, rfl, rfl, rfl, rfl⟩

end Netcdf2html

namespace Netcdf2html

/-- C7: the legend of a single-band layer is a fixed 20×200 gradient
rendered through the same encoder (`save_image`) and parameters as the
data; its leftmost column's colour equals the data-encoding of any cell
holding `vmin`, and its rightmost column is the encoding of a value whose
normalized position is `1 - 1/200` — within 1/200 of the normalized
position 1 of `vmax` (the "approximately equals" of the claim, stated
without assumptions on the palette function). -/
theorem C7_legend_matches_data_encoding (cmap : ℚ → Colour) (l : LayerSingleBand)
    (h : l.vmin < l.vmax) :
    (build_legend cmap l).rows = 20 ∧ (build_legend cmap l).cols = 200 ∧
    (∀ i i' j' (arr : Arr2 ℚ), arr.data i' j' = l.vmin →
      (build_legend cmap l).data i 0 = (save_image cmap l.vmin l.vmax arr).data i' j') ∧
    (∀ i, normValue l.vmin l.vmax ((legend_array l).data i 199) = 1 - 1 / 200) ∧
    normValue l.vmin l.vmax l.vmax = 1 := by
  have hne : l.vmax - l.vmin ≠ 0 := by
    intro hz
    have h0 := sub_eq_zero.mp hz
    exact absurd h0 (ne_of_gt h)
  refine ⟨rfl, rfl, ?_, ?_, ?_⟩
  · intro i i' j' arr ha
    simp only [build_legend, save_image, legend_array, ha]
    norm_num
  · intro i
    simp only [legend_array, normValue]
    field_simp
    ring
  · simp only [normValue]
    field_simp

/-- Witness for C7 with `vmin = 0`, `vmax = 10`, the spec's 2×2 example
grid (whose cell (0,0) holds 0), and a concrete palette function. -/
theorem C7_legend_matches_data_encoding_witness :
    (0 : ℚ) < 10 ∧
    (build_legend w7_cmap w7_layer).rows = 20 ∧
    (build_legend w7_cmap w7_layer).cols = 200 ∧
    (build_legend w7_cmap w7_layer).data 3 0 = (save_image w7_cmap 0 10 w7_arr).data 0 0 ∧
    normValue 0 10 ((legend_array w7_layer).data 0 199) = 1 - 1 / 200 ∧
    normValue 0 10 10 = 1 := by
  have T := C7_legend_matches_data_encoding w7_cmap w7_layer (by norm_num [w7_layer])
  exact ⟨by norm_num, T.1, T.2.1, T.2.2.1 3 0 0 w7_arr rfl, T.2.2.2.1 0, T.2.2.2.2⟩

/-- C8: for a constant-valued band (every cell 5, no NaNs) the per-band
normalization of `save_image_falsecolour` computes `0/0` at every pixel —
NaN — and the encoder then silently casts it to a byte (0 in the model,
platform-dependent garbage in numpy), for any square-root stretch
function.  The claim (and spec §8) requires this degenerate `max == min`
case not to produce NaN; the code does. -/
theorem C8_falsecolour_constant_band_nan :
    ∀ sq : ℚ → ℚ, ∀ i j,
      (normBand constBand).data i j = none ∧
      (save_image_falsecolour sq constBand constBand constBand).data i j = (0, 0, 0) := by
  intro sq i j
  have hmin : nanmin constBand = some 5 := by
    simp [nanmin, arrVals, constBand, List.range_succ]
  have hmax : nanmax constBand = some 5 := by
    simp [nanmax, arrVals, constBand, List.range_succ]
  have hnorm : (normBand constBand).data i j = none := by
    simp only [normBand, Arr2.map]
    rw [hmin, hmax]
    show pfDiv (pfSub (some 5) (some 5)) (pfSub (some 5) (some 5)) = none
    simp [pfSub, pfDiv]
  refine ⟨hnorm, ?_⟩
  simp only [save_image_falsecolour, encodeBand, Arr2.map, hnorm, Option.map_none', u8pf]

/-- C9: neither `check` (which only ever raises a flag), `bind` (which
never touches the flags), nor construction with flags off, ever resets a
true orientation flag to false: a layer reused across datasets keeps stale
true flags.  (`get_data`, `build` and `build_legend` are pure in the
embedding, matching the source, which never assigns the flags outside
`check`.) -/
theorem C9_orientation_flags_monotone (l : Layer) (ds : Dataset) :
    (l.flipud = true → ((check l ds).1).flipud = true) ∧
    (l.fliplr = true → ((check l ds).1).fliplr = true) ∧
    (∀ cd x y t, ((l.bind cd x y t).flipud = l.flipud ∧ (l.bind cd x y t).fliplr = l.fliplr)) ∧
    (∀ nm lb sels, (mkLayer nm lb sels).flipud = false ∧ (mkLayer nm lb sels).fliplr = false) := by
  refine ⟨?_, ?_, fun cd x y t => ⟨rfl, rfl⟩, fun nm lb sels => ⟨rfl, rfl⟩⟩ <;> intro h
  · rcases (check_flag_mono l ds).1 with hm | hm
    · rw [hm, h]
    · exact hm
  · rcases (check_flag_mono l ds).2 with hm | hm
    · rw [hm, h]
    · exact hm

/-- Witness for C9: a layer with both flags already true keeps them true
through a `check` call. -/
theorem C9_orientation_flags_monotone_witness :
    ((check w9_layer ([] : Dataset)).1).flipud = true ∧
    ((check w9_layer ([] : Dataset)).1).fliplr = true :=
  ⟨(C9_orientation_flags_monotone w9_layer []).1 rfl,
   (C9_orientation_flags_monotone w9_layer []).2.1 rfl⟩

/-- C10: a Mask layer configured with bitmask 0 is falsy for the
`if self.mask:` guard, so `build` skips the bitwise AND entirely and its
output equals that of the same layer with no bitmask configured — not an
all-transparent image. -/
theorem C10_zero_bitmask_ignored (l : LayerMask) (ds : Dataset) (hm : l.mask = some 0) :
    maskBuild l ds = maskBuild { l with mask := none } ds := by
  unfold maskBuild
  simp [hm, pyTruthy]

/-- Witness for C10 on a concrete 2×2 boolean band. -/
theorem C10_zero_bitmask_ignored_witness :
    maskBuild w10_layer w10_ds = maskBuild { w10_layer with mask := none } w10_ds :=
  C10_zero_bitmask_ignored w10_layer w10_ds rfl

end Netcdf2html
